import Mathlib

/-!
Shallow embedding of the Wasend scheduled-message delivery queue.

The definitions below are translated from the repository's source:
  * the schedule store layer (src/src/services/database.js),
  * the delivery worker, retry classifier, birthday scheduler and media
    sweep (the Baileys service file, src/unnamed/part_000).

Strings are modelled with Lean's `String` (a list of characters); the
JavaScript string helpers used by the source (substring test, lower-casing
of ASCII, digit stripping, prefix tests, `path.basename`) are implemented
as structurally recursive functions over `List Char` so that every
definition evaluates by kernel reduction.

Timestamps are modelled as a calendar date plus seconds-of-day; the ISO
string order used by the store's `lte('send_at', now)` query is the
chronological order, modelled by `tsLe` through a numeric key.
-/

namespace Wasend

/-! ## String helpers (JavaScript semantics) -/

/-- `leadsWith pat txt` : does `txt` begin with `pat`?  (List-level prefix
test used to model JavaScript `String.startsWith` and regex `^...` tests.) -/
def leadsWith : List Char → List Char → Bool
  | [], _ => true
  | _ :: _, [] => false
  | a :: as, b :: bs => a == b && leadsWith as bs

/-- `listContains sub txt` : does `sub` occur as a contiguous substring of
`txt`?  Models JavaScript `String.includes` (for non-empty `sub`). -/
def listContains (sub : List Char) : List Char → Bool
  | [] => sub.isEmpty
  | c :: cs => leadsWith sub (c :: cs) || listContains sub cs

/-- JavaScript `s.includes(sub)` for the non-empty literals the source uses. -/
def containsSub (s sub : String) : Bool := listContains sub.data s.data

/-- JavaScript `s.startsWith(p)`. -/
def strStarts (s p : String) : Bool := leadsWith p.data s.data

/-- ASCII lower-casing of one character (JavaScript `toLowerCase` on the
ASCII range, which covers every string the source lower-cases). -/
def lowerChar (c : Char) : Char :=
  if 65 ≤ c.toNat ∧ c.toNat ≤ 90 then Char.ofNat (c.toNat + 32) else c

/-- JavaScript `s.toLowerCase()` (ASCII). -/
def lowerStr (s : String) : String := ⟨s.data.map lowerChar⟩

/-- JavaScript `s.replace(/[^\d]/g, "")` : keep only decimal digits. -/
def stripNonDigits (s : String) : String := ⟨s.data.filter Char.isDigit⟩

/-- JavaScript truthiness of a nullable string: `null`/`undefined` and the
empty string are falsy. -/
def truthy : Option String → Bool
  | some s => !(s.data.isEmpty)
  | none => false

/-- Split a character list at `'/'` (components may be empty). -/
def splitOnSlash : List Char → List (List Char)
  | [] => [[]]
  | c :: cs =>
    let r := splitOnSlash cs
    if c = '/' then [] :: r
    else
      match r with
      | h :: t => (c :: h) :: t
      | [] => [[c]]

/-- Node's `path.basename`: the last non-empty `/`-separated component
(trailing slashes ignored; a string with no non-empty component, such as
`"/"`, is returned unchanged). -/
def basename (s : String) : String :=
  match ((splitOnSlash s.data).filter (fun p => !p.isEmpty)).getLast? with
  | some p => ⟨p⟩
  | none => s

/-! ## Timestamps -/

/-- A calendar date (year, month 1–12, day 1–31). -/
structure SDate where
  y : Nat
  m : Nat
  d : Nat
deriving DecidableEq, Repr

/-- Gregorian leap year. -/
def isLeap (y : Nat) : Bool :=
  (y % 4 = 0 && y % 100 ≠ 0) || y % 400 = 0

/-- Days in a Gregorian month. -/
def daysInMonth (y m : Nat) : Nat :=
  if m = 2 then (if isLeap y then 29 else 28)
  else if m = 4 ∨ m = 6 ∨ m = 9 ∨ m = 11 then 30
  else 31

/-- The date one calendar day ahead (dayjs `.add(1, 'day')` on the date part). -/
def nextDay (dt : SDate) : SDate :=
  if dt.d < daysInMonth dt.y dt.m then ⟨dt.y, dt.m, dt.d + 1⟩
  else if dt.m < 12 then ⟨dt.y, dt.m + 1, 1⟩
  else ⟨dt.y + 1, 1, 1⟩

/-- A timestamp: calendar date plus seconds of day, in the bot's local
timezone. -/
structure Ts where
  date : SDate
  sec : Nat
deriving DecidableEq, Repr

/-- Numeric key realising the chronological order on valid dates. -/
def SDate.key (dt : SDate) : Nat := dt.y * 10000 + dt.m * 100 + dt.d

/-- Numeric key realising the chronological order on valid timestamps. -/
def Ts.key (t : Ts) : Nat := t.date.key * 100000 + t.sec

/-- Chronological `≤` on timestamps: the order the store's
`lte('send_at', now)` ISO-string comparison realises. -/
def tsLe (a b : Ts) : Bool := decide (a.key ≤ b.key)

/-! ## Data model: ScheduleItem (§3 of the spec; `schedule` table) -/

/-- Row status (`status` CHECK constraint in the schema). -/
inductive Status
  | pending
  | sent
  | failed
deriving DecidableEq, Repr

/-- One `schedule` row (supabase-schema field set). -/
structure ScheduleItem where
  id : Nat
  batchId : String
  recipient : String
  caption : Option String
  mediaUrl : Option String
  mediaType : Option String
  sendAt : Ts
  status : Status
  error : Option String
  retryCount : Nat
  sentAt : Option Ts
deriving DecidableEq, Repr

/-- The schedule store: the list of rows of the `schedule` table. -/
abbrev Store := List ScheduleItem

/-! ## Store operations (src/src/services/database.js) -/

/-- `getPendingSchedule()` : all rows with `status = 'pending'`, read-only. -/
def getPendingSchedule (st : Store) : List ScheduleItem :=
  st.filter (fun i => i.status == Status.pending)

/-- `getDueScheduleItems()` : rows with `status = 'pending'` and
`send_at <= now`.  The result is paired with the (unchanged) store to make
the read-only nature of the operation part of the model. -/
def getDueScheduleItems (now : Ts) (st : Store) : List ScheduleItem × Store :=
  (st.filter (fun i => i.status == Status.pending && tsLe i.sendAt now), st)

/-- `updateScheduleStatus(id, status, error = null, sentAt = null)` :
sets `status` on the row with the given id; the `error` and `sent_at`
columns are written only when the corresponding argument is truthy
(`if (error) updates.error = error; if (sentAt) updates.sent_at = sentAt`),
so a `null` argument leaves the stored value in place. -/
def updateScheduleStatus (id : Nat) (newStatus : Status) (err : Option String)
    (sentAt : Option Ts) (st : Store) : Store :=
  st.map (fun r =>
    if r.id = id then
      { r with
        status := newStatus
        error := if truthy err then err else r.error
        sentAt := if sentAt.isSome then sentAt else r.sentAt }
    else r)

/-- Result of the retry-increment store operation (§4.3 of the spec). -/
structure RetryResult where
  shouldRetry : Bool
  retryCount : Nat
deriving DecidableEq, Repr

/-- Modelled from the spec: `incrementRetry(itemId, maxRetries)` (§4.3).
The worker calls `db.incrementRetryCount(item.id, 3)`, but the store layer
in src/src/services/database.js does not define or export an
`incrementRetryCount`; this definition follows the spec's words —
atomically increment the stored retry counter, return
`shouldRetry = (new count ≤ maxRetries)`, and leave `status` untouched
(the caller transitions the row to `failed` when the cap is exceeded). -/
def incrementRetryCount (id : Nat) (maxRetries : Nat) (st : Store) :
    RetryResult × Store :=
  let newCount :=
    match st.find? (fun r => r.id == id) with
    | some r => r.retryCount + 1
    | none => 1
  ({ shouldRetry := decide (newCount ≤ maxRetries), retryCount := newCount },
   st.map (fun r => if r.id = id then { r with retryCount := r.retryCount + 1 } else r))

/-! ## Retry classifier (`isRetryableError`, part_000) -/

/-- `isRetryableError(errorMessage)` : true iff the message matches one of
the fixed regex patterns.  All patterns are plain (unanchored) substring
tests; the case-insensitive ones are modelled by lower-casing both sides. -/
def isRetryableError (msg : String) : Bool :=
  let m := lowerStr msg
  containsSub m "timeout" || containsSub m "network" || containsSub m "connection" ||
  containsSub m "etimedout" || containsSub m "econnreset" || containsSub m "enotfound" ||
  containsSub m "socket hang up" || containsSub m "rate limit" ||
  containsSub m "too many requests" ||
  containsSub msg "503" || containsSub msg "502" || containsSub msg "500"

/-! ## Media lifecycle helpers (part_000) -/

/-- The directory the server serves static files from; media paths in
`media_url` are resolved relative to it (`path.join(PUBLIC_DIR, rel)`).
The absolute filesystem prefix is irrelevant to the queue's behavior, so it
is modelled by the literal `"public"`. -/
def PUBLIC_DIR : String := "public"

/-- The uploads directory swept by the media cleanup
(`path.join(PUBLIC_DIR, 'uploads')`). -/
def UPLOADS_DIR : String := "public/uploads"

/-- The regex test `/^https?:\/\//i`. -/
def isHttpSlashUrl (s : String) : Bool :=
  let m := lowerStr s
  strStarts m "http://" || strStarts m "https://"

/-- The regex test `/^https?:/i`. -/
def isHttpColon (s : String) : Bool :=
  let m := lowerStr s
  strStarts m "http:" || strStarts m "https:"

/-- JavaScript `u.replace(/^\//, "")` : drop one leading slash. -/
def dropLeadingSlash (s : String) : String :=
  if strStarts s "/" then ⟨s.data.drop 1⟩ else s

/-- Resolution of `media_url` to either a pass-through remote URL or a local
path under `PUBLIC_DIR` (`rel.split("/").join(path.sep)` is the identity for
`path.sep = "/"`). -/
def resolveMediaPath (u : String) : String :=
  if isHttpSlashUrl u then u else PUBLIC_DIR ++ "/" ++ dropLeadingSlash u

/-- The four transport media kinds. -/
inductive MediaKind
  | image
  | video
  | audio
  | document
deriving DecidableEq, Repr

/-- Categorisation of `media_type`: case-insensitive substring match, in
priority order image, video, audio, default document. -/
def mediaCategoryOf (mt : Option String) : MediaKind :=
  let m := lowerStr (mt.getD "")
  if containsSub m "image" then MediaKind.image
  else if containsSub m "video" then MediaKind.video
  else if containsSub m "audio" then MediaKind.audio
  else MediaKind.document

/-- Media content handed to the transport: a remote URL passed through, or
the bytes read from a local file (represented by the file's path). -/
inductive MediaContent
  | url (u : String)
  | bytes (path : String)
deriving DecidableEq, Repr

/-- The payload of one `sock.sendMessage` call. -/
inductive Payload
  | text (t : String)
  | image (content : MediaContent) (caption : Option String)
  | video (content : MediaContent) (caption : Option String)
  | audio (content : MediaContent) (mimetype : Option String)
  | document (content : MediaContent) (caption : Option String)
      (mimetype : String) (fileName : String)
deriving DecidableEq, Repr

/-- The caption field carried by a payload (`none` when the payload has no
caption key). -/
def payloadCaption : Payload → Option String
  | Payload.text _ => none
  | Payload.image _ c => c
  | Payload.video _ c => c
  | Payload.audio _ _ => none
  | Payload.document _ c _ _ => c

/-- The media kind of a payload (`none` for plain text). -/
def payloadKind : Payload → Option MediaKind
  | Payload.text _ => none
  | Payload.image _ _ => some MediaKind.image
  | Payload.video _ _ => some MediaKind.video
  | Payload.audio _ _ => some MediaKind.audio
  | Payload.document _ _ _ _ => some MediaKind.document

/-! ## Delivery worker (processQueue, part_000) -/

/-- The worker's environment: the external collaborators of one run.
`connAt 0` is the connectivity check at entry; `connAt n` (n ≥ 1) the
re-check before the n-th item.  `sendOutcome n = none` means the n-th
item's `sock.sendMessage` succeeds, `some msg` means it throws with message
`msg`.  `fetchThrows` injects an unexpected exception inside the worker's
outer `try` (at the due-items fetch); the `finally` must still release the
single-flight flag. -/
structure Env where
  connAt : Nat → Bool
  dbConfigured : Bool
  fetchThrows : Option String
  sendOutcome : Nat → Option String
  fileExists : String → Bool
  mimeLookup : String → Option String
  normalizeJid : String → String
  now : Ts

/-- The observable effects of one run: the `sock.sendMessage` calls made
(recipient jid and payload, in order, including calls that threw) and the
local media files unlinked after successful sends. -/
structure RunLog where
  sends : List (String × Payload)
  unlinks : List String
deriving DecidableEq, Repr

/-- The empty run log. -/
def RunLog.nil : RunLog := ⟨[], []⟩

/-- Concatenation of run logs. -/
def RunLog.app (a b : RunLog) : RunLog := ⟨a.sends ++ b.sends, a.unlinks ++ b.unlinks⟩

/-- Recipient resolution (worker step b): a group jid (containing
`"@g.us"`) is passed through verbatim; otherwise the recipient is reduced
to its digits (the subsequent `startsWith('+')` strip of the source is kept
even though a digits-only string cannot start with `'+'`), rejected when
fewer than 10 digits remain (`none`), else normalised to a user jid. -/
def resolveJid (env : Env) (r : String) : Option String :=
  if containsSub r "@g.us" then some r
  else
    let phone := stripNonDigits r
    let phone := if strStarts phone "+" then ⟨phone.data.drop 1⟩ else phone
    if phone.length < 10 then none
    else some (env.normalizeJid (phone ++ "@s.whatsapp.net"))

/-- The document payload's mimetype:
`item.media_type || mime.lookup(item.media_url) || "application/octet-stream"`. -/
def docMimetype (env : Env) (item : ScheduleItem) : String :=
  if truthy item.mediaType then item.mediaType.getD ""
  else if truthy (env.mimeLookup (item.mediaUrl.getD "")) then
    (env.mimeLookup (item.mediaUrl.getD "")).getD ""
  else "application/octet-stream"

/-- The `sock.sendMessage` payload built for a media item (worker step d,
lines 881–896 of the service file): image/video carry the truthy caption,
audio carries the raw `media_type` as mimetype (and no caption), document
carries caption, mimetype and the basename of the resolved path. -/
def buildMediaPayload (env : Env) (item : ScheduleItem) (localOrHttp : String)
    (content : MediaContent) : Payload :=
  let cap := if truthy item.caption then item.caption else none
  match mediaCategoryOf item.mediaType with
  | MediaKind.image => Payload.image content cap
  | MediaKind.video => Payload.video content cap
  | MediaKind.audio => Payload.audio content item.mediaType
  | MediaKind.document =>
      Payload.document content cap (docMimetype env item) (basename localOrHttp)

/-- The outcome of the n-th item's dispatch attempt and the per-item
`catch` block: on success mark `sent` (with `sentAt = now`, `error`
argument `null`) and unlink a local media file; on a thrown error, classify
it — retryable and under the cap: increment the counter and leave the row
`pending`; retryable over the cap: mark `failed` with
`"Max retries exceeded: " ++ msg`; non-retryable: mark `failed` with the
message. -/
def afterSendAttempt (env : Env) (item : ScheduleItem) (jid : String)
    (payload : Payload) (localFile : Option String) (st : Store) (n : Nat) :
    Store × RunLog :=
  match env.sendOutcome n with
  | none =>
    let st1 := updateScheduleStatus item.id Status.sent none (some env.now) st
    (st1, ⟨[(jid, payload)], localFile.toList⟩)
  | some msg =>
    if isRetryableError msg then
      let rr := incrementRetryCount item.id 3 st
      if rr.1.shouldRetry then (rr.2, ⟨[(jid, payload)], []⟩)
      else
        (updateScheduleStatus item.id Status.failed
          (some ("Max retries exceeded: " ++ msg)) none rr.2,
         ⟨[(jid, payload)], []⟩)
    else
      (updateScheduleStatus item.id Status.failed (some msg) none st,
       ⟨[(jid, payload)], []⟩)

/-- One item of the worker loop body (everything inside the per-item `try`
after the connectivity re-check), returning the updated store and the
item's log. -/
def processItem (env : Env) (item : ScheduleItem) (st : Store) (n : Nat) :
    Store × RunLog :=
  match resolveJid env item.recipient with
  | none =>
    (updateScheduleStatus item.id Status.failed
      (some "Invalid phone number: too short") none st, RunLog.nil)
  | some jid =>
    if truthy item.mediaUrl then
      let u := item.mediaUrl.getD ""
      let localOrHttp := resolveMediaPath u
      if isHttpColon localOrHttp then
        afterSendAttempt env item jid
          (buildMediaPayload env item localOrHttp (MediaContent.url localOrHttp))
          none st n
      else if env.fileExists localOrHttp then
        afterSendAttempt env item jid
          (buildMediaPayload env item localOrHttp (MediaContent.bytes localOrHttp))
          (some localOrHttp) st n
      else
        (updateScheduleStatus item.id Status.failed
          (some "Media file not found") none st, RunLog.nil)
    else if truthy item.caption then
      afterSendAttempt env item jid (Payload.text (item.caption.getD "")) none st n
    else
      (updateScheduleStatus item.id Status.failed
        (some "No message content") none st, RunLog.nil)

/-- The worker loop: items sequentially, `processedCount` starting at 1;
losing connectivity before an item stops the loop, leaving the remaining
items untouched. -/
def processItems (env : Env) : List ScheduleItem → Store → Nat → Store × RunLog
  | [], st, _ => (st, RunLog.nil)
  | item :: rest, st, n =>
    if env.connAt n then
      let r := processItem env item st n
      let r2 := processItems env rest r.1 (n + 1)
      (r2.1, RunLog.app r.2 r2.2)
    else (st, RunLog.nil)

/-- Worker state across runs: the store plus the module-level
`sendingInProgress` single-flight flag. -/
structure WorkerState where
  store : Store
  sendingInProgress : Bool
deriving DecidableEq, Repr

/-- One invocation of `processQueue`: abort (no-op) when not connected,
when a run is already in progress, or when the store is unconfigured;
otherwise set the single-flight flag, fetch the due items and process them,
releasing the flag in `finally` — also when the body throws
(`env.fetchThrows`). -/
def processQueue (env : Env) (w : WorkerState) : WorkerState × RunLog :=
  if !env.connAt 0 then (w, RunLog.nil)
  else if w.sendingInProgress then (w, RunLog.nil)
  else if !env.dbConfigured then (w, RunLog.nil)
  else
    match env.fetchThrows with
    | some _ => ({ w with sendingInProgress := false }, RunLog.nil)
    | none =>
      let due := (getDueScheduleItems env.now w.store).1
      let r := processItems env due w.store 1
      ({ store := r.1, sendingInProgress := false }, r.2)

/-! ## Birthday trigger scheduler (checkBirthdays, part_000) -/

/-- One `birthdays` row. -/
structure Birthday where
  name : String
  phone : String
  birthday : SDate
  gender : String
  relationship : String
  customMessage : Option String
deriving DecidableEq, Repr

/-- `getOrdinalSuffix(num)` from the AI-fallback template. -/
def getOrdinalSuffix (num : Nat) : String :=
  let j := num % 10
  let k := num % 100
  if j = 1 ∧ k ≠ 11 then toString num ++ "st"
  else if j = 2 ∧ k ≠ 12 then toString num ++ "nd"
  else if j = 3 ∧ k ≠ 13 then toString num ++ "rd"
  else toString num ++ "th"

/-- The deterministic template fallback of `generateBirthdayMessage`, keyed
on relationship and gender (age = current year minus birth year). -/
def fallbackBirthdayMessage (today : SDate) (b : Birthday) : String :=
  let ageText := getOrdinalSuffix (today.y - b.birthday.y)
  if b.relationship = "family" then
    "Happy " ++ ageText ++ " birthday " ++ b.name ++ "! 🎉🎂"
  else if b.relationship = "relative" then
    "Happy " ++ ageText ++ " birthday " ++ b.name ++ "! 🎉🎂"
  else if b.relationship = "friend" then
    if b.gender = "male" then "Happy " ++ ageText ++ " birthday brother! 🎉🎂"
    else "Happy " ++ ageText ++ " birthday sis! 🎉🎂"
  else "Happy " ++ ageText ++ " birthday " ++ b.name ++ "! 🎉🎂"

/-- Environment of the birthday check: connectivity, store availability and
the external text-composition capability (`none` models an AI failure, in
which case the template fallback is used). -/
structure BdayEnv where
  connected : Bool
  dbConfigured : Bool
  compose : Birthday → Option String

/-- `generateBirthdayMessage` : the AI text when composition succeeds, else
the deterministic fallback. -/
def generateBirthdayMessage (env : BdayEnv) (today : SDate) (b : Birthday) : String :=
  (env.compose b).getD (fallbackBirthdayMessage today b)

/-- The caption enqueued for a birthday:
`birthday.custom_message || await generateBirthdayMessage(birthday)`. -/
def birthdayCaption (env : BdayEnv) (today : SDate) (b : Birthday) : String :=
  if truthy b.customMessage then b.customMessage.getD ""
  else generateBirthdayMessage env today b

/-- The ScheduleItem enqueued for birthday `b` (via `addScheduleItems`,
which stores a truthy caption, nulls for the media fields and
`status = 'pending'`); `nid` models the database-assigned id and the
`nanoid()` batch id. -/
def mkBirthdayItem (nid : Nat) (target : SDate) (msg : String) (b : Birthday) :
    ScheduleItem :=
  { id := nid
    batchId := toString nid
    recipient := b.phone
    caption := if truthy (some msg) then some msg else none
    mediaUrl := none
    mediaType := none
    sendAt := ⟨target, 0⟩
    status := Status.pending
    error := none
    retryCount := 0
    sentAt := none }

/-- One run of `checkBirthdays` at local time `now`: for every birthday
entry whose month-day equals tomorrow's, enqueue a message due at
tomorrow's local midnight unless the pending schedule (read once, before
the loop) already holds an item with the same recipient, a caption
containing `"birthday"`, and a send time on the target date. -/
def checkBirthdays (env : BdayEnv) (now : Ts) (birthdays : List Birthday)
    (st : Store) (nid : Nat) : Store :=
  if !env.connected then st
  else if !env.dbConfigured then st
  else
    let target := nextDay now.date
    let matchedBds := birthdays.filter
      (fun b => b.birthday.m == target.m && b.birthday.d == target.d)
    let pending0 := getPendingSchedule st
    (matchedBds.foldl (fun acc b =>
      let already := pending0.any (fun i =>
        i.recipient == b.phone &&
        containsSub (i.caption.getD "") "birthday" &&
        i.sendAt.date == target)
      if already then acc
      else (acc.1 ++ [mkBirthdayItem acc.2 target (birthdayCaption env now.date b) b],
            acc.2 + 1))
      (st, nid)).1

/-! ## Media sweep (cleanupOldMediaFiles, part_000) -/

/-- A file of the uploads directory: basename and modification time in
milliseconds. -/
structure MFile where
  name : String
  mtimeMs : Int
deriving DecidableEq, Repr

/-- The sweep's active set: basenames of the `media_url` of currently
pending rows, keeping only truthy urls that do not start with `"http"`. -/
def activeMediaFiles (st : Store) : List String :=
  (((getPendingSchedule st).map (fun i => i.mediaUrl)).filter
    (fun u => truthy u && !strStarts (u.getD "") "http")).map
    (fun u => basename (u.getD ""))

/-- One run of `cleanupOldMediaFiles` over the uploads directory listing,
returning the files it deletes: nothing when the store is unconfigured;
otherwise every file other than `.gitkeep` whose modification time is older
than 24 hours and whose name is not in the active set. -/
def cleanupOldMediaFiles (dbConfigured : Bool) (files : List MFile) (st : Store)
    (nowMs : Int) : List MFile :=
  if !dbConfigured then []
  else
    let oneDayAgo := nowMs - 24 * 60 * 60 * 1000
    let active := activeMediaFiles st
    files.filter (fun f =>
      f.name != ".gitkeep" && decide (f.mtimeMs < oneDayAgo) &&
      !active.contains f.name)

/-! ## Derived run function and concrete sample data used by witnesses -/

/-- The store after one worker invocation started with a released
single-flight flag. -/
def runStore (env : Env) (s : Store) : Store :=
  (processQueue env ⟨s, false⟩).1.store

/-- A sample schedule row builder: pending, due at `⟨2026-10-12, 100s⟩`. -/
def sampleItem (id : Nat) (recipient : String) (caption mediaUrl mediaType : Option String) :
    ScheduleItem :=
  { id := id
    batchId := "batch"
    recipient := recipient
    caption := caption
    mediaUrl := mediaUrl
    mediaType := mediaType
    sendAt := ⟨⟨2026, 10, 12⟩, 100⟩
    status := Status.pending
    error := none
    retryCount := 0
    sentAt := none }

/-- A sample worker environment: connected, store configured, every send
succeeds, no local files exist, identity jid normalisation, current time
`⟨2026-10-12, 200s⟩`. -/
def sampleEnv : Env :=
  { connAt := fun _ => true
    dbConfigured := true
    fetchThrows := none
    sendOutcome := fun _ => none
    fileExists := fun _ => false
    mimeLookup := fun _ => none
    normalizeJid := fun s => s
    now := ⟨⟨2026, 10, 12⟩, 200⟩ }

/-- The sample environment with every send throwing `"ETIMEDOUT"`
(a retryable message). -/
def sampleEnvFail : Env := { sampleEnv with sendOutcome := fun _ => some "ETIMEDOUT" }

/-- The sample environment with an unexpected exception thrown inside the
worker's outer `try`. -/
def sampleEnvThrow : Env := { sampleEnv with fetchThrows := some "boom" }

/-- The sample environment where the one local media file
`public/uploads/pic.jpg` exists. -/
def sampleEnvFile : Env :=
  { sampleEnv with fileExists := fun p => p == "public/uploads/pic.jpg" }

/-- The C9 scenario item: phone-derived recipient, caption `"hi"`, no
media. -/
def item9 : ScheduleItem := sampleItem 1 "94770000000@s.whatsapp.net" (some "hi") none none

/-- A group-recipient item. -/
def itemGroup : ScheduleItem := sampleItem 2 "120363023@g.us" (some "yo") none none

/-- A too-short phone recipient (3 digits). -/
def itemShort : ScheduleItem := sampleItem 3 "123" (some "hi") none none

/-- An item whose media points to a missing local file. -/
def itemNoFile : ScheduleItem :=
  sampleItem 4 "94770000000" (some "hi") (some "/uploads/gone.jpg") (some "image/jpeg")

/-- An audio item with a caption and a remote media URL. -/
def itemAudio : ScheduleItem :=
  sampleItem 5 "94770000000" (some "hello") (some "http://cdn/a.mp3") (some "audio/mpeg")

/-- A video item with a caption and an existing local media file. -/
def itemVideo : ScheduleItem :=
  sampleItem 6 "94770000000" (some "clip") (some "/uploads/pic.jpg") (some "video/mp4")

/-- A failed row holding an error string from an earlier attempt. -/
def itemStale : ScheduleItem :=
  { sampleItem 7 "94770000000" (some "hi") none none with
    status := Status.failed, error := some "boom" }

/-- A pending row whose `media_url` is a remote URL with basename
`"pic.jpg"`. -/
def itemRemoteRef : ScheduleItem :=
  sampleItem 8 "94770000000" (some "hi") (some "http://cdn.example/pic.jpg") (some "image/jpeg")

/-- An uploads-directory file named `"pic.jpg"` with modification time 0. -/
def filePic : MFile := ⟨"pic.jpg", 0⟩

/-- A birthday entry dated one day after `sampleNow`, with a custom message
that contains no birthday marker. -/
def cexBday : Birthday :=
  { name := "Amal", phone := "94770000001", birthday := ⟨2000, 10, 13⟩,
    gender := "male", relationship := "friend", customMessage := some "Congrats!" }

/-- The same entry without a custom message (the template fallback is
used). -/
def okBday : Birthday := { cexBday with customMessage := none }

/-- A birthday-check environment: connected, configured, AI composition
failing (so the deterministic fallback is used). -/
def sampleBdayEnv : BdayEnv :=
  { connected := true, dbConfigured := true, compose := fun _ => none }

/-- The sample current time `2026-10-12`. -/
def sampleNow : Ts := ⟨⟨2026, 10, 12⟩, 500⟩

/-! ## Helper lemmas -/

/-- Prepending the empty log is the identity. -/
theorem RunLog.nil_app (b : RunLog) : RunLog.app RunLog.nil b = b := by
  cases b; simp [RunLog.app, RunLog.nil]

/-- `updateScheduleStatus` never touches the retry counter of any row. -/
theorem updateScheduleStatus_retryCount (id : Nat) (s : Status) (e : Option String)
    (sa : Option Ts) (st : Store) :
    (updateScheduleStatus id s e sa st).map (fun r => r.retryCount) =
      st.map (fun r => r.retryCount) := by
  simp only [updateScheduleStatus, List.map_map]
  apply List.map_congr_left
  intro a _
  by_cases h : a.id = id <;> simp [h]

/-- A null string argument is falsy. -/
theorem truthy_none : truthy none = false := rfl

/-- A digits-only string cannot start with `'+'`. -/
theorem strStarts_stripNonDigits_plus (r : String) :
    strStarts (stripNonDigits r) "+" = false := by
  unfold strStarts stripNonDigits
  cases h : r.data.filter Char.isDigit with
  | nil => rfl
  | cons c cs =>
    have hc : Char.isDigit c = true := by
      have : c ∈ r.data.filter Char.isDigit := by rw [h]; exact List.mem_cons_self c cs
      exact (List.mem_filter.mp this).2
    show leadsWith ['+'] (c :: cs) = false
    have hne : ('+' == c) = false := by
      cases hq : ('+' == c)
      · rfl
      · exfalso
        have : '+' = c := beq_iff_eq.mp hq
        rw [← this] at hc
        simp [Char.isDigit] at hc
    simp [leadsWith, hne]

/-- A path under `PUBLIC_DIR` never passes the `/^https?:/i` test. -/
theorem isHttpColon_public (s : String) :
    isHttpColon (PUBLIC_DIR ++ "/" ++ s) = false := by
  have hdata : (PUBLIC_DIR ++ "/" ++ s).data = 'p' :: ('u' :: ('b' :: ('l' :: ('i' :: ('c' :: ('/' :: s.data)))))) := by
    show ("public/" ++ s).data = _
    rw [String.data_append]
    rfl
  simp [isHttpColon, lowerStr, strStarts, hdata, lowerChar, leadsWith, Char.ofNat]

/-! ## Claims -/

/-- C3: for every store state and current time, the due-item selector
returns exactly the rows with `status = pending` and `sendAt ≤ now`
(chronological order on timestamps), and it performs no writes: the store
component of its result is the input store, unchanged. -/
theorem getDueScheduleItems_correct (now : Ts) (st : Store) :
    (getDueScheduleItems now st).2 = st ∧
    ∀ i : ScheduleItem, i ∈ (getDueScheduleItems now st).1 ↔
      i ∈ st ∧ i.status = Status.pending ∧ tsLe i.sendAt now = true := by
  refine ⟨rfl, fun i => ?_⟩
  simp [getDueScheduleItems, List.mem_filter, and_assoc]

/-- C10: the status-update operation with a null `error` argument (as the
worker's mark-`sent` call uses) never clears a stored error: the `error`
column of every row is unchanged; moreover, on a concrete row that failed
earlier with `"boom"`, marking it `sent` leaves `status = sent` together
with the stale error string. -/
theorem updateScheduleStatus_never_clears_error (id : Nat) (s : Status)
    (sa : Option Ts) (st : Store) :
    ((updateScheduleStatus id s none sa st).map (fun r => r.error) =
        st.map (fun r => r.error)) ∧
    ((updateScheduleStatus 7 Status.sent none (some sampleEnv.now) [itemStale]).map
        (fun r => (r.status, r.error)) = [(Status.sent, some "boom")]) := by
  constructor
  · simp only [updateScheduleStatus, List.map_map]
    apply List.map_congr_left
    intro a _
    by_cases h : a.id = id <;> simp [h, truthy]
  · decide

/-- C2: single-flight — invoking the worker while a run is in progress is
a complete no-op (state unchanged, nothing fetched, dispatched or
mutated, empty run log); and whenever a run starts with the flag released,
it finishes with the flag released, for every environment — including one
whose body throws an unexpected exception (`fetchThrows`). -/
theorem processQueue_single_flight (env : Env) (w : WorkerState) :
    (w.sendingInProgress = true → processQueue env w = (w, RunLog.nil)) ∧
    (w.sendingInProgress = false →
      (processQueue env w).1.sendingInProgress = false) := by
  constructor
  · intro h
    unfold processQueue
    by_cases hc : env.connAt 0 <;> simp [hc, h]
  · intro h
    unfold processQueue
    by_cases hc : env.connAt 0
    · by_cases hd : env.dbConfigured
      · cases hf : env.fetchThrows <;> simp [hc, h, hd, hf]
      · simp [hc, h, hd]
    · simp [hc, h]

/-- Witness for C2: a busy worker is a no-op, and a run whose body throws
still releases the single-flight flag. -/
theorem processQueue_single_flight_witness :
    processQueue sampleEnvThrow ⟨[item9], true⟩ = (⟨[item9], true⟩, RunLog.nil) ∧
    (processQueue sampleEnvThrow ⟨[item9], false⟩).1.sendingInProgress = false :=
  ⟨(processQueue_single_flight sampleEnvThrow ⟨[item9], true⟩).1 rfl,
   (processQueue_single_flight sampleEnvThrow ⟨[item9], false⟩).2 rfl⟩

/-- Counterexample for C5: the sweep's active set keeps only `media_url`
values that do not start with `"http"`, so a file whose basename is
referenced by a currently pending item's remote `media_url` is deleted
once it is older than the threshold — here `pic.jpg`, referenced by the
pending row `itemRemoteRef` (`media_url = "http://cdn.example/pic.jpg"`,
whose basename is `pic.jpg`), is among the deleted files. -/
theorem cleanup_deletes_remote_referenced_file :
    itemRemoteRef.status = Status.pending ∧
    truthy itemRemoteRef.mediaUrl = true ∧
    basename (itemRemoteRef.mediaUrl.getD "") = filePic.name ∧
    filePic ∈ cleanupOldMediaFiles true [filePic] [itemRemoteRef] 100000000 := by
  decide

/-- C5 (amended): a file is deleted by the sweep exactly when the store is
configured, the file is not the `.gitkeep` sentinel, its modification time
is older than 24 hours, and its name is not in the active set — the
basenames of pending rows' truthy `media_url`s that do **not** start with
`"http"` (a pending item's remote URL does not protect a local file of the
same basename). -/
theorem cleanup_spec (dbc : Bool) (files : List MFile) (st : Store)
    (nowMs : Int) (f : MFile) :
    f ∈ cleanupOldMediaFiles dbc files st nowMs ↔
      f ∈ files ∧ dbc = true ∧ f.name ≠ ".gitkeep" ∧
      f.mtimeMs < nowMs - 24 * 60 * 60 * 1000 ∧
      f.name ∉ activeMediaFiles st := by
  unfold cleanupOldMediaFiles
  by_cases h : dbc
  · simp [h, List.mem_filter, and_assoc, List.contains, List.elem_eq_mem, decide_eq_true_eq]
  · simp [h]

/-- Every dispatch attempt logs exactly one transport call, with the jid
and payload it was invoked with. -/
theorem afterSendAttempt_sends (env : Env) (item : ScheduleItem) (jid : String)
    (payload : Payload) (localFile : Option String) (st : Store) (n : Nat) :
    (afterSendAttempt env item jid payload localFile st n).2.sends = [(jid, payload)] := by
  unfold afterSendAttempt
  cases env.sendOutcome n with
  | none => rfl
  | some msg =>
    by_cases h : isRetryableError msg
    · by_cases h2 : (incrementRetryCount item.id 3 st).1.shouldRetry <;> simp [h, h2]
    · simp [h]

/-- C6: a non-group recipient is normalised to its digits; when fewer than
10 digits remain the worker marks the item terminally failed with
`"Invalid phone number: too short"`, makes no transport call for it (the
run's log equals the log of the remaining items alone), and continues with
the rest; a group recipient (one containing `"@g.us"`) resolves to itself
and every transport call for such an item uses the recipient verbatim. -/
theorem recipient_resolution (env : Env) (item : ScheduleItem)
    (rest : List ScheduleItem) (st : Store) (n : Nat)
    (hconn : env.connAt n = true) :
    (containsSub item.recipient "@g.us" = false →
      (stripNonDigits item.recipient).length < 10 →
      processItems env (item :: rest) st n =
        processItems env rest
          (updateScheduleStatus item.id Status.failed
            (some "Invalid phone number: too short") none st) (n + 1)) ∧
    (containsSub item.recipient "@g.us" = true →
      resolveJid env item.recipient = some item.recipient ∧
      ∀ e ∈ (processItem env item st n).2.sends, e.1 = item.recipient) := by
  constructor
  · intro hng hshort
    have hnone : resolveJid env item.recipient = none := by
      simp [resolveJid, hng, strStarts_stripNonDigits_plus, hshort]
    simp [processItems, hconn, processItem, hnone, RunLog.nil_app]
  · intro hg
    have hj : resolveJid env item.recipient = some item.recipient := by
      simp [resolveJid, hg]
    refine ⟨hj, ?_⟩
    intro e he
    simp only [processItem, hj] at he
    by_cases hm : truthy item.mediaUrl = true
    · by_cases hcol : isHttpColon (resolveMediaPath (item.mediaUrl.getD "")) = true
      · simp [hm, hcol, afterSendAttempt_sends] at he
        rw [he]
      · by_cases hex : env.fileExists (resolveMediaPath (item.mediaUrl.getD "")) = true
        · simp [hm, hcol, hex, afterSendAttempt_sends] at he
          rw [he]
        · simp [hm, hcol, hex, RunLog.nil] at he
    · by_cases hc : truthy item.caption = true
      · simp [hm, hc, afterSendAttempt_sends] at he
        rw [he]
      · simp [hm, hc, RunLog.nil] at he

/-- Witness for C6: the 3-digit recipient `"123"` is marked failed with
`"Invalid phone number: too short"` and produces no transport call, while
a group jid resolves verbatim. -/
theorem recipient_resolution_witness :
    processItems sampleEnv [itemShort] [itemShort] 1 =
      processItems sampleEnv []
        (updateScheduleStatus 3 Status.failed
          (some "Invalid phone number: too short") none [itemShort]) 2 ∧
    resolveJid sampleEnv itemGroup.recipient = some itemGroup.recipient :=
  ⟨(recipient_resolution sampleEnv itemShort [itemShort] [itemShort] 1 rfl).1
      (by decide) (by decide),
   ((recipient_resolution sampleEnv itemGroup [] [] 1 rfl).2 (by decide)).1⟩

/-- C7: a due item whose `media_url` resolves to a local path with no file
is marked terminally failed with `"Media file not found"`, no transport
call is made for it (the run's log equals the log of the remaining
items), the failure is not routed through the retry classifier — no row's
retry counter changes — and the worker continues with the remaining
items. -/
theorem media_not_found_terminal (env : Env) (item : ScheduleItem) (jid : String)
    (rest : List ScheduleItem) (st : Store) (n : Nat)
    (hconn : env.connAt n = true)
    (hjid : resolveJid env item.recipient = some jid)
    (hmedia : truthy item.mediaUrl = true)
    (hlocal : isHttpSlashUrl (item.mediaUrl.getD "") = false)
    (hmiss : env.fileExists (resolveMediaPath (item.mediaUrl.getD "")) = false) :
    processItems env (item :: rest) st n =
      processItems env rest
        (updateScheduleStatus item.id Status.failed
          (some "Media file not found") none st) (n + 1) ∧
    (updateScheduleStatus item.id Status.failed (some "Media file not found")
        none st).map (fun r => r.retryCount) = st.map (fun r => r.retryCount) := by
  have hrp : resolveMediaPath (item.mediaUrl.getD "") =
      PUBLIC_DIR ++ "/" ++ dropLeadingSlash (item.mediaUrl.getD "") := by
    simp [resolveMediaPath, hlocal]
  have hcolon : isHttpColon (resolveMediaPath (item.mediaUrl.getD "")) = false := by
    rw [hrp]; exact isHttpColon_public _
  refine ⟨?_, updateScheduleStatus_retryCount _ _ _ _ _⟩
  simp [processItems, hconn, processItem, hjid, hmedia, hcolon, hmiss, RunLog.nil_app]

/-- Witness for C7: the item whose media points at the absent
`public/uploads/gone.jpg` is marked failed with `"Media file not found"`. -/
theorem media_not_found_terminal_witness :
    processItems sampleEnv [itemNoFile] [itemNoFile] 1 =
      processItems sampleEnv []
        (updateScheduleStatus 4 Status.failed (some "Media file not found")
          none [itemNoFile]) 2 ∧
    (updateScheduleStatus 4 Status.failed (some "Media file not found")
        none [itemNoFile]).map (fun r => r.retryCount) =
      [itemNoFile].map (fun r => r.retryCount) :=
  media_not_found_terminal sampleEnv itemNoFile "94770000000@s.whatsapp.net"
    [] [itemNoFile] 1 rfl (by decide) (by decide) (by decide) (by decide)

/-- Counterexample for C8: an audio item with a truthy caption is
dispatched with a payload that carries no caption (the source builds the
audio payload from content and mimetype only), so the dispatched payload
does not carry the item's caption for every media kind. -/
theorem audio_payload_drops_caption :
    truthy itemAudio.caption = true ∧
    mediaCategoryOf itemAudio.mediaType = MediaKind.audio ∧
    ((processQueue sampleEnv ⟨[itemAudio], false⟩).2.sends.map
        (fun e => payloadCaption e.2)) = [none] := by
  decide

/-- C8 (amended): the dispatched payload's kind equals the categorisation
of the item's `media_type` (case-insensitive substring match in priority
order image, video, audio, default document — `mediaCategoryOf`); the
payload carries the item's truthy caption for the image, video and
document kinds, while the audio payload carries the raw `media_type` as
mimetype and no caption; the worker dispatches exactly this payload for a
media item (remote URL or existing local file), and an item without media
is dispatched as plain text equal to its caption. -/
theorem dispatch_payload_spec (env : Env) (item : ScheduleItem)
    (localOrHttp : String) (content : MediaContent) (st : Store) (n : Nat)
    (jid : String) :
    (payloadKind (buildMediaPayload env item localOrHttp content) =
      some (mediaCategoryOf item.mediaType)) ∧
    (mediaCategoryOf item.mediaType ≠ MediaKind.audio →
      payloadCaption (buildMediaPayload env item localOrHttp content) =
        (if truthy item.caption then item.caption else none)) ∧
    (mediaCategoryOf item.mediaType = MediaKind.audio →
      buildMediaPayload env item localOrHttp content =
        Payload.audio content item.mediaType) ∧
    (resolveJid env item.recipient = some jid →
      truthy item.mediaUrl = true →
      isHttpColon (resolveMediaPath (item.mediaUrl.getD "")) = true →
      (processItem env item st n).2.sends =
        [(jid, buildMediaPayload env item (resolveMediaPath (item.mediaUrl.getD ""))
            (MediaContent.url (resolveMediaPath (item.mediaUrl.getD ""))))]) ∧
    (resolveJid env item.recipient = some jid →
      truthy item.mediaUrl = true →
      isHttpColon (resolveMediaPath (item.mediaUrl.getD "")) = false →
      env.fileExists (resolveMediaPath (item.mediaUrl.getD "")) = true →
      (processItem env item st n).2.sends =
        [(jid, buildMediaPayload env item (resolveMediaPath (item.mediaUrl.getD ""))
            (MediaContent.bytes (resolveMediaPath (item.mediaUrl.getD ""))))]) ∧
    (resolveJid env item.recipient = some jid →
      truthy item.mediaUrl = false → truthy item.caption = true →
      (processItem env item st n).2.sends =
        [(jid, Payload.text (item.caption.getD ""))]) := by
  refine ⟨?_, ?_, ?_, ?_, ?_, ?_⟩
  · cases h : mediaCategoryOf item.mediaType <;>
      simp [buildMediaPayload, h, payloadKind]
  · intro hna
    cases h : mediaCategoryOf item.mediaType
    · simp [buildMediaPayload, h, payloadCaption]
    · simp [buildMediaPayload, h, payloadCaption]
    · exact absurd h hna
    · simp [buildMediaPayload, h, payloadCaption]
  · intro ha
    simp [buildMediaPayload, ha]
  · intro hjid hm hcol
    simp [processItem, hjid, hm, hcol, afterSendAttempt_sends]
  · intro hjid hm hcol hex
    simp [processItem, hjid, hm, hcol, hex, afterSendAttempt_sends]
  · intro hjid hm hc
    simp [processItem, hjid, hm, hc, afterSendAttempt_sends]

/-- Witness for C8 (amended): a video item with an existing local file is
dispatched once with the video payload built by `buildMediaPayload`. -/
theorem dispatch_payload_spec_witness :
    payloadKind (buildMediaPayload sampleEnvFile itemVideo "public/uploads/pic.jpg"
        (MediaContent.bytes "public/uploads/pic.jpg")) = some MediaKind.video ∧
    (processItem sampleEnvFile itemVideo [itemVideo] 1).2.sends =
      [("94770000000@s.whatsapp.net",
        buildMediaPayload sampleEnvFile itemVideo
          (resolveMediaPath (itemVideo.mediaUrl.getD ""))
          (MediaContent.bytes (resolveMediaPath (itemVideo.mediaUrl.getD ""))))] :=
  ⟨(dispatch_payload_spec sampleEnvFile itemVideo "public/uploads/pic.jpg"
      (MediaContent.bytes "public/uploads/pic.jpg") [itemVideo] 1
      "94770000000@s.whatsapp.net").1,
   (dispatch_payload_spec sampleEnvFile itemVideo "public/uploads/pic.jpg"
      (MediaContent.bytes "public/uploads/pic.jpg") [itemVideo] 1
      "94770000000@s.whatsapp.net").2.2.2.2.1
     (by decide) (by decide) (by decide) (by decide)⟩

/-- C9: a due pending item with a valid phone-derived recipient, a truthy
caption and no media, processed by one worker run on a connected transport
whose send succeeds, ends with `status = sent` and `sentAt` set to the
send time, and the transport is invoked exactly once for it, with the
plain-text payload equal to the caption. -/
theorem scenario_plain_text_sent (env : Env) (item : ScheduleItem)
    (h0 : env.connAt 0 = true) (h1 : env.connAt 1 = true)
    (hdb : env.dbConfigured = true) (hft : env.fetchThrows = none)
    (hok : env.sendOutcome 1 = none)
    (hst : item.status = Status.pending)
    (hdue : tsLe item.sendAt env.now = true)
    (hng : containsSub item.recipient "@g.us" = false)
    (hlen : ¬ (stripNonDigits item.recipient).length < 10)
    (hcap : truthy item.caption = true)
    (hmed : item.mediaUrl = none) :
    processQueue env ⟨[item], false⟩ =
      (⟨[{ item with status := Status.sent, sentAt := some env.now }], false⟩,
       ⟨[(env.normalizeJid (stripNonDigits item.recipient ++ "@s.whatsapp.net"),
          Payload.text (item.caption.getD ""))], []⟩) := by
  have hj : resolveJid env item.recipient =
      some (env.normalizeJid (stripNonDigits item.recipient ++ "@s.whatsapp.net")) := by
    simp [resolveJid, hng, strStarts_stripNonDigits_plus, hlen]
  unfold processQueue
  simp [h0, h1, hdb, hft, getDueScheduleItems, hst, hdue, processItems, processItem,
    hj, hmed, truthy_none, hcap, afterSendAttempt, hok, updateScheduleStatus,
    RunLog.nil_app, RunLog.app, RunLog.nil]

/-- Witness for C9: the scenario item (recipient
`"94770000000@s.whatsapp.net"`, caption `"hi"`, due in the past) ends
`sent` with `sentAt` set, and the transport was invoked once with
`{text: "hi"}`. -/
theorem scenario_plain_text_sent_witness :
    processQueue sampleEnv ⟨[item9], false⟩ =
      (⟨[{ item9 with status := Status.sent, sentAt := some sampleEnv.now }], false⟩,
       ⟨[("94770000000@s.whatsapp.net", Payload.text "hi")], []⟩) :=
  scenario_plain_text_sent sampleEnv item9 rfl rfl rfl rfl rfl rfl (by decide)
    (by decide) (by decide) (by decide) rfl

/-- A string that contains `"birthday"` is truthy. -/
theorem truthy_of_contains_birthday (s : String)
    (h : containsSub s "birthday" = true) : truthy (some s) = true := by
  cases hd : s.data with
  | nil =>
    rw [containsSub, hd] at h
    simp [listContains] at h
  | cons c cs => simp [truthy, hd]

/-- Counterexample for C4: a birthday entry dated tomorrow whose custom
message contains no birthday marker — the first check run enqueues one
item, and a second run before the item is consumed enqueues a second one,
because the duplicate guard looks for `"birthday"` in the pending item's
caption and the enqueued custom caption does not contain it. -/
theorem birthday_rerun_duplicate :
    truthy cexBday.customMessage = true ∧
    containsSub (cexBday.customMessage.getD "") "birthday" = false ∧
    (checkBirthdays sampleBdayEnv sampleNow [cexBday] [] 1).length = 1 ∧
    (checkBirthdays sampleBdayEnv sampleNow [cexBday]
        (checkBirthdays sampleBdayEnv sampleNow [cexBday] [] 1) 2).length = 2 := by
  decide

/-- C4 (amended): for a birthday entry whose month-day matches tomorrow's
date and with no matching pending item (same recipient, caption containing
`"birthday"`, due on the target date), one check run enqueues exactly one
new item, due at local midnight of the target date; and — provided the
caption it enqueued contains the `"birthday"` marker, which holds for the
template fallback but is not guaranteed for a custom message — a second
run before the item is consumed enqueues nothing. -/
theorem birthday_check_idempotent (env : BdayEnv) (now : Ts) (b : Birthday)
    (st : Store) (nid nid2 : Nat)
    (hc : env.connected = true) (hdb : env.dbConfigured = true)
    (hm : b.birthday.m = (nextDay now.date).m)
    (hd : b.birthday.d = (nextDay now.date).d)
    (hnone : ∀ i ∈ getPendingSchedule st,
      i.recipient = b.phone →
      containsSub (i.caption.getD "") "birthday" = true →
      i.sendAt.date ≠ nextDay now.date) :
    (checkBirthdays env now [b] st nid =
      st ++ [mkBirthdayItem nid (nextDay now.date)
        (birthdayCaption env now.date b) b]) ∧
    ((mkBirthdayItem nid (nextDay now.date) (birthdayCaption env now.date b) b).sendAt
      = ⟨nextDay now.date, 0⟩) ∧
    (containsSub (birthdayCaption env now.date b) "birthday" = true →
      checkBirthdays env now [b]
        (st ++ [mkBirthdayItem nid (nextDay now.date)
          (birthdayCaption env now.date b) b]) nid2 =
      st ++ [mkBirthdayItem nid (nextDay now.date)
        (birthdayCaption env now.date b) b]) := by
  have hb : (b.birthday.m == (nextDay now.date).m &&
      b.birthday.d == (nextDay now.date).d) = true := by
    simp [hm, hd]
  refine ⟨?_, rfl, ?_⟩
  · have hex : ¬ ∃ x ∈ getPendingSchedule st,
        (x.recipient = b.phone ∧ containsSub (x.caption.getD "") "birthday" = true) ∧
        x.sendAt.date = nextDay now.date := by
      rintro ⟨x, hx, ⟨h1, h2⟩, h3⟩
      exact hnone x hx h1 h2 h3
    unfold checkBirthdays
    simp [hc, hdb, hb, hex]
  · intro hbd
    have ht : truthy (some (birthdayCaption env now.date b)) = true :=
      truthy_of_contains_birthday _ hbd
    set newItem := mkBirthdayItem nid (nextDay now.date)
      (birthdayCaption env now.date b) b with hnew
    have hmem : newItem ∈ getPendingSchedule (st ++ [newItem]) := by
      simp [getPendingSchedule, List.mem_filter, hnew, mkBirthdayItem]
    have hex2 : ∃ x ∈ getPendingSchedule (st ++ [newItem]),
        (x.recipient = b.phone ∧ containsSub (x.caption.getD "") "birthday" = true) ∧
        x.sendAt.date = nextDay now.date := by
      refine ⟨newItem, hmem, ⟨?_, ?_⟩, ?_⟩
      · rw [hnew]
        simp [mkBirthdayItem]
      · rw [hnew]
        simp [mkBirthdayItem, ht, hbd]
      · rw [hnew]
        simp [mkBirthdayItem]
    unfold checkBirthdays
    simp [hc, hdb, hb, hex2]

/-- Witness for C4 (amended): the entry without a custom message (template
fallback, whose text contains `"birthday"`) is enqueued once at tomorrow's
midnight by the first run, and the second run enqueues nothing. -/
theorem birthday_check_idempotent_witness :
    checkBirthdays sampleBdayEnv sampleNow [okBday] [] 1 =
      [mkBirthdayItem 1 ⟨2026, 10, 13⟩
        (birthdayCaption sampleBdayEnv ⟨2026, 10, 12⟩ okBday) okBday] ∧
    checkBirthdays sampleBdayEnv sampleNow [okBday]
        [mkBirthdayItem 1 ⟨2026, 10, 13⟩
          (birthdayCaption sampleBdayEnv ⟨2026, 10, 12⟩ okBday) okBday] 2 =
      [mkBirthdayItem 1 ⟨2026, 10, 13⟩
        (birthdayCaption sampleBdayEnv ⟨2026, 10, 12⟩ okBday) okBday] :=
  ⟨(birthday_check_idempotent sampleBdayEnv sampleNow okBday [] 1 2 rfl rfl
      (by decide) (by decide)
      (fun i hi => absurd hi (List.not_mem_nil i))).1,
   (birthday_check_idempotent sampleBdayEnv sampleNow okBday [] 1 2 rfl rfl
      (by decide) (by decide)
      (fun i hi => absurd hi (List.not_mem_nil i))).2.2 (by decide)⟩

/-- The max-retries error string is truthy for every underlying message. -/
theorem truthy_max_retries (msg : String) :
    truthy (some ("Max retries exceeded: " ++ msg)) = true := rfl

/-- C1: retry-cap behavior of the worker together with the
(spec-modelled) `incrementRetryCount` store operation, for a due,
pending, text-only item with a resolvable recipient and retry counter 0:
failing with a retryable error on four consecutive runs (`max + 1 = 4`
attempts) ends with `status = failed` and the stored error
`"Max retries exceeded: " ++ msg`; failing on `k < 3` runs and then
succeeding ends with `status = sent`; and `incrementRetryCount` increments
the matching row's stored counter, returns
`shouldRetry = (new count ≤ max)`, and never changes any row's status (so
a pending row stays pending while the count is within the cap). -/
theorem retry_cap (envF envS : Env) (item : ScheduleItem) (msg : String)
    (hFc : ∀ k, envF.connAt k = true) (hFdb : envF.dbConfigured = true)
    (hFft : envF.fetchThrows = none)
    (hFs : ∀ k, envF.sendOutcome k = some msg)
    (hSc : ∀ k, envS.connAt k = true) (hSdb : envS.dbConfigured = true)
    (hSft : envS.fetchThrows = none)
    (hSs : ∀ k, envS.sendOutcome k = none)
    (hret : isRetryableError msg = true)
    (hst : item.status = Status.pending)
    (hdueF : tsLe item.sendAt envF.now = true)
    (hdueS : tsLe item.sendAt envS.now = true)
    (hjid : ∀ e : Env, (resolveJid e item.recipient).isSome = true)
    (hcap : truthy item.caption = true)
    (hmed : item.mediaUrl = none)
    (hrc : item.retryCount = 0) :
    (runStore envF (runStore envF (runStore envF (runStore envF [item]))) =
      [{ item with
         retryCount := 4
         status := Status.failed
         error := some ("Max retries exceeded: " ++ msg) }]) ∧
    (∀ k, k < 3 → runStore envS ((runStore envF)^[k] [item]) =
      [{ item with
         retryCount := k
         status := Status.sent
         sentAt := some envS.now }]) ∧
    (∀ (st : Store) (id maxR : Nat),
      ((incrementRetryCount id maxR st).2.map (fun r => r.status) =
        st.map (fun r => r.status)) ∧
      ((incrementRetryCount id maxR st).1.shouldRetry =
        decide ((incrementRetryCount id maxR st).1.retryCount ≤ maxR)) ∧
      (∀ r ∈ st, r.id = id →
        { r with retryCount := r.retryCount + 1 } ∈
          (incrementRetryCount id maxR st).2)) := by
  obtain ⟨jF, hjF⟩ := Option.isSome_iff_exists.mp (hjid envF)
  obtain ⟨jS, hjS⟩ := Option.isSome_iff_exists.mp (hjid envS)
  have stepF : ∀ c : Nat, c + 1 ≤ 3 →
      runStore envF [{ item with retryCount := c }] =
        [{ item with retryCount := c + 1 }] := by
    intro c hc3
    unfold runStore processQueue
    simp [hFc, hFdb, hFft, getDueScheduleItems, hst, hdueF, processItems,
      processItem, hjF, hmed, truthy_none, hcap, afterSendAttempt, hFs, hret,
      incrementRetryCount, hc3, RunLog.nil_app]
  have stepCap : runStore envF [{ item with retryCount := 3 }] =
      [{ item with
         retryCount := 4
         status := Status.failed
         error := some ("Max retries exceeded: " ++ msg) }] := by
    unfold runStore processQueue
    simp [hFc, hFdb, hFft, getDueScheduleItems, hst, hdueF, processItems,
      processItem, hjF, hmed, truthy_none, hcap, afterSendAttempt, hFs, hret,
      incrementRetryCount, updateScheduleStatus, truthy_max_retries, RunLog.nil_app]
  have stepS : ∀ c : Nat, runStore envS [{ item with retryCount := c }] =
      [{ item with
         retryCount := c
         status := Status.sent
         sentAt := some envS.now }] := by
    intro c
    unfold runStore processQueue
    simp [hSc, hSdb, hSft, getDueScheduleItems, hst, hdueS, processItems,
      processItem, hjS, hmed, truthy_none, hcap, afterSendAttempt, hSs,
      updateScheduleStatus, RunLog.nil_app]
  have h0 : [item] = [{ item with retryCount := 0 }] := by rw [← hrc]
  have s1 : runStore envF [item] = [{ item with retryCount := 1 }] := by
    rw [h0]; simpa using stepF 0 (by decide)
  have s2 : runStore envF [{ item with retryCount := 1 }] =
      [{ item with retryCount := 2 }] := by
    simpa using stepF 1 (by decide)
  have s3 : runStore envF [{ item with retryCount := 2 }] =
      [{ item with retryCount := 3 }] := by
    simpa using stepF 2 (by decide)
  refine ⟨?_, ?_, ?_⟩
  · rw [s1, s2, s3, stepCap]
  · intro k hk
    interval_cases k
    · simp only [Function.iterate_zero, id_eq]
      rw [h0]
      simpa using stepS 0
    · simp only [Function.iterate_one]
      rw [s1]
      simpa using stepS 1
    · simp only [Function.iterate_succ, Function.iterate_one, Function.comp_apply]
      rw [s1, s2]
      simpa using stepS 2
  · intro st id maxR
    refine ⟨?_, rfl, ?_⟩
    · simp only [incrementRetryCount, List.map_map]
      apply List.map_congr_left
      intro a _
      by_cases h : a.id = id <;> simp [h]
    · intro r hr hid
      simp only [incrementRetryCount]
      refine List.mem_map.mpr ⟨r, hr, ?_⟩
      simp [hid]

/-- Witness for C1: the group-recipient item failing four times with
`"ETIMEDOUT"` ends failed with the max-retries error; failing twice and
then succeeding ends sent. -/
theorem retry_cap_witness :
    (runStore sampleEnvFail (runStore sampleEnvFail (runStore sampleEnvFail
        (runStore sampleEnvFail [itemGroup]))) =
      [{ itemGroup with
         retryCount := 4
         status := Status.failed
         error := some ("Max retries exceeded: " ++ "ETIMEDOUT") }]) ∧
    (runStore sampleEnv ((runStore sampleEnvFail)^[2] [itemGroup]) =
      [{ itemGroup with
         retryCount := 2
         status := Status.sent
         sentAt := some sampleEnv.now }]) :=
  ⟨(retry_cap sampleEnvFail sampleEnv itemGroup "ETIMEDOUT"
      (fun _ => rfl) rfl rfl (fun _ => rfl) (fun _ => rfl) rfl rfl (fun _ => rfl)
      (by decide) rfl (by decide) (by decide) (fun _ => rfl) (by decide) rfl
      rfl).1,
   (retry_cap sampleEnvFail sampleEnv itemGroup "ETIMEDOUT"
      (fun _ => rfl) rfl rfl (fun _ => rfl) (fun _ => rfl) rfl rfl (fun _ => rfl)
      (by decide) rfl (by decide) (by decide) (fun _ => rfl) (by decide) rfl
      rfl).2.1 2 (by decide)⟩

/-- Witness for C3: the characterisation evaluated on a one-row store. -/
theorem getDueScheduleItems_correct_witness :
    (getDueScheduleItems sampleEnv.now [item9]).2 = [item9] ∧
    (item9 ∈ (getDueScheduleItems sampleEnv.now [item9]).1 ↔
      item9 ∈ [item9] ∧ item9.status = Status.pending ∧
      tsLe item9.sendAt sampleEnv.now = true) :=
  ⟨(getDueScheduleItems_correct sampleEnv.now [item9]).1,
   (getDueScheduleItems_correct sampleEnv.now [item9]).2 item9⟩

/-- Witness for C5 (amended): the characterisation evaluated on a one-file
directory and empty store. -/
theorem cleanup_spec_witness :
    filePic ∈ cleanupOldMediaFiles true [filePic] [] 100000000 ↔
      filePic ∈ [filePic] ∧ true = true ∧ filePic.name ≠ ".gitkeep" ∧
      filePic.mtimeMs < 100000000 - 24 * 60 * 60 * 1000 ∧
      filePic.name ∉ activeMediaFiles [] :=
  cleanup_spec true [filePic] [] 100000000 filePic

/-- Witness for C10: the frame property evaluated on the stale-error row. -/
theorem updateScheduleStatus_never_clears_error_witness :
    ((updateScheduleStatus 7 Status.sent none (some sampleEnv.now) [itemStale]).map
        (fun r => r.error) = [itemStale].map (fun r => r.error)) ∧
    ((updateScheduleStatus 7 Status.sent none (some sampleEnv.now) [itemStale]).map
        (fun r => (r.status, r.error)) = [(Status.sent, some "boom")]) :=
  updateScheduleStatus_never_clears_error 7 Status.sent (some sampleEnv.now) [itemStale]

end Wasend
